import Mathlib

/-!
Shallow embedding of the queryflare worker (`src/main.ts`): the read-only
SQL validator (`validateReadOnlyQuery` with its inner recursive `checkNode`
walker) and the `/query/shared` request pipeline of the `fetch` handler.

The SQL parser (`sql-parser-cst`) is an external dependency, so it is
modelled abstractly as a function `String → Except String Node`: a parse
tree is a tagged node with a `type` string, an optional `name` string (the
callee of a function call), and a list of child nodes, mirroring the object
graph that `checkNode` walks via `Object.values`.  JavaScript numbers are
modelled as rationals (ℚ): the claims under study are about which values
populate each field, not about floating-point rounding.
-/

namespace QueryFlare

/-- A parse-tree node: `type` discriminator, optional `name` (used by
`checkNode` only on function-call nodes), and the child objects reachable
from the node's properties, in property order. -/
inductive Node where
  | mk (type : String) (name : Option String) (children : List Node)

/-- The two mutable variables of `validateReadOnlyQuery`
(`hasNonReadOperation` and `errorMessage`) threaded through the walk. -/
structure CheckState where
  hasNonReadOperation : Bool
  errorMessage : String
deriving DecidableEq, Repr

/-- Character-wise ASCII lower-casing, modelling JavaScript's
`toLowerCase()` on the identifiers in play. -/
def lowerStr (s : String) : String := ⟨s.data.map Char.toLower⟩

/-- JavaScript truthiness of an optional string (`undefined` and `""` are
falsy). -/
def strTruthy : Option String → Bool
  | some s => s ≠ ""
  | none => false

/-- The function denylist of `checkNode` (`dangerousFunctions` in
`src/main.ts`). -/
def dangerousFunctions : List String :=
  ["load_extension", "sqlite_compileoption_used", "sqlite_compileoption_get",
   "pragma"]

/-- The statement-kind denylist: the eight `node.type` values rejected by
`checkNode`. -/
def dangerousStatementTypes : List String :=
  ["insert_stmt", "update_stmt", "delete_stmt", "create_table_stmt",
   "drop_table_stmt", "alter_table_stmt", "create_index_stmt",
   "drop_index_stmt"]

mutual

/-- Translation of the recursive `checkNode` of `src/main.ts` lines 54-98.
The two closed-over mutable variables are the explicit state `s`.  A
violating node overwrites the state and returns without visiting its own
children; sibling traversal in the enclosing `forEach` continues regardless. -/
def checkNode (s : CheckState) : Node → CheckState
  | .mk ty name children =>
    if ty = "insert_stmt" ∨ ty = "update_stmt" ∨ ty = "delete_stmt" ∨
        ty = "create_table_stmt" ∨ ty = "drop_table_stmt" ∨
        ty = "alter_table_stmt" ∨ ty = "create_index_stmt" ∨
        ty = "drop_index_stmt" then
      ⟨true, "Write operation not allowed: " ++ ty⟩
    else if ty = "function_call" ∧ strTruthy name = true then
      if lowerStr (name.getD "") ∈ dangerousFunctions then
        ⟨true, "Function not allowed: " ++ lowerStr (name.getD "")⟩
      else
        checkNodes s children
    else
      checkNodes s children

/-- The `Object.values(node).forEach(checkNode)` sibling loop: the state is
threaded left to right through every child, with no early exit. -/
def checkNodes (s : CheckState) : List Node → CheckState
  | [] => s
  | n :: ns => checkNodes (checkNode s n) ns

end

/-- The verdict record returned by `validateReadOnlyQuery`
(`{ isValid, error? }`). -/
structure Verdict where
  isValid : Bool
  error : Option String
deriving DecidableEq, Repr

/-- Translation of `validateReadOnlyQuery` (`src/main.ts` lines 41-113),
parameterised by the external parser.  A parser exception yields the
fail-closed parse-diagnostic verdict. -/
def validateReadOnlyQuery (parseSql : String → Except String Node)
    (sql : String) : Verdict :=
  match parseSql sql with
  | .error msg => ⟨false, some ("SQL parsing error: " ++ msg)⟩
  | .ok cst =>
    let s := checkNode ⟨false, ""⟩ cst
    if s.hasNonReadOperation then ⟨false, some s.errorMessage⟩
    else ⟨true, none⟩

/-! ### Specification-side description of the walk -/

/-- Whether a node's own `type` is one of the eight denylisted statement
kinds. -/
def isDenyStmtType (ty : String) : Bool :=
  decide (ty ∈ dangerousStatementTypes)

/-- Whether a node is, by itself, a forbidden function call: a
`function_call` node with a truthy callee name whose lower-casing is in the
function denylist. -/
def isDangerousCall (ty : String) (name : Option String) : Bool :=
  decide (ty = "function_call") && strTruthy name &&
    decide (lowerStr (name.getD "") ∈ dangerousFunctions)

/-- The violation message a single node contributes, if any. -/
def nodeViolation (ty : String) (name : Option String) : Option String :=
  if isDenyStmtType ty then some ("Write operation not allowed: " ++ ty)
  else if isDangerousCall ty name then
    some ("Function not allowed: " ++ lowerStr (name.getD ""))
  else none

mutual

/-- The violation messages encountered by the walk, in traversal order:
a violating node contributes its own message and its subtree is skipped;
a clean node contributes its children's violations. -/
def violations : Node → List String
  | .mk ty name children =>
    match nodeViolation ty name with
    | some m => [m]
    | none => violationsList children

/-- Violations of a sibling list, in order. -/
def violationsList : List Node → List String
  | [] => []
  | n :: ns => violations n ++ violationsList ns

end

/-- The state the walk ends in, as a function of the initial state and the
violation list: the last violation wins, and with no violation the state is
untouched. -/
def finalState (s : CheckState) (vs : List String) : CheckState :=
  match vs.getLast? with
  | none => s
  | some m => ⟨true, m⟩

theorem finalState_append (s : CheckState) (a b : List String) :
    finalState (finalState s a) b = finalState s (a ++ b) := by
  cases hb : b with
  | nil => simp [finalState]
  | cons x xs =>
    have hne : b ≠ [] := by simp [hb]
    rw [← hb]
    unfold finalState
    rw [List.getLast?_append_of_ne_nil _ hne]
    cases hbl : b.getLast? with
    | none => simp [List.getLast?_eq_none_iff] at hbl; exact absurd hbl hne
    | some m => rfl

theorem checkNode_mk (s : CheckState) (ty : String) (name : Option String)
    (children : List Node) :
    checkNode s (.mk ty name children) =
      match nodeViolation ty name with
      | some m => ⟨true, m⟩
      | none => checkNodes s children := by
  have hmem : (ty ∈ dangerousStatementTypes) ↔
      (ty = "insert_stmt" ∨ ty = "update_stmt" ∨ ty = "delete_stmt" ∨
       ty = "create_table_stmt" ∨ ty = "drop_table_stmt" ∨
       ty = "alter_table_stmt" ∨ ty = "create_index_stmt" ∨
       ty = "drop_index_stmt") := by
    simp [dangerousStatementTypes]
  by_cases h1 : ty ∈ dangerousStatementTypes
  · rw [checkNode]
    rw [if_pos (hmem.mp h1)]
    simp [nodeViolation, isDenyStmtType, h1]
  · by_cases h2 : ty = "function_call" ∧ strTruthy name = true
    · by_cases h3 : lowerStr (name.getD "") ∈ dangerousFunctions
      · rw [checkNode, if_neg (fun hc => h1 (hmem.mpr hc)), if_pos h2,
          if_pos h3]
        simp [nodeViolation, isDenyStmtType, isDangerousCall, h1, h2.1,
          h2.2, h3, dangerousStatementTypes]
      · rw [checkNode, if_neg (fun hc => h1 (hmem.mpr hc)), if_pos h2,
          if_neg h3]
        simp [nodeViolation, isDenyStmtType, isDangerousCall, h1, h3]
    · rw [checkNode, if_neg (fun hc => h1 (hmem.mpr hc)), if_neg h2]
      have : isDangerousCall ty name = false := by
        simp only [isDangerousCall]
        rcases not_and_or.mp h2 with h | h
        · simp [h]
        · have hb : strTruthy name = false := by
            cases hs : strTruthy name
            · rfl
            · exact absurd hs h
          simp [hb]
      simp [nodeViolation, isDenyStmtType, h1, this]

mutual

theorem checkNode_eq_finalState (s : CheckState) (n : Node) :
    checkNode s n = finalState s (violations n) := by
  match n with
  | .mk ty name children =>
    rw [checkNode_mk]
    cases h : nodeViolation ty name with
    | some m =>
      simp only [violations, h]
      rfl
    | none =>
      simp only [violations, h]
      exact checkNodes_eq_finalState s children

theorem checkNodes_eq_finalState (s : CheckState) (l : List Node) :
    checkNodes s l = finalState s (violationsList l) := by
  match l with
  | [] => simp [checkNodes, violationsList, finalState]
  | n :: ns =>
    show checkNodes (checkNode s n) ns = _
    rw [checkNodes_eq_finalState (checkNode s n) ns,
      checkNode_eq_finalState s n]
    simp only [violationsList]
    exact finalState_append s (violations n) (violationsList ns)

end

/-! ### Deep containment predicates -/

mutual

/-- The tree contains, at any depth, a node whose `type` is a denylisted
statement kind. -/
def containsDenyStmt : Node → Bool
  | .mk ty _ children => isDenyStmtType ty || containsDenyStmtList children

/-- List version of `containsDenyStmt`. -/
def containsDenyStmtList : List Node → Bool
  | [] => false
  | n :: ns => containsDenyStmt n || containsDenyStmtList ns

end

mutual

/-- The tree contains, at any depth, a forbidden function call. -/
def containsDangerousCall : Node → Bool
  | .mk ty name children =>
    isDangerousCall ty name || containsDangerousCallList children

/-- List version of `containsDangerousCall`. -/
def containsDangerousCallList : List Node → Bool
  | [] => false
  | n :: ns => containsDangerousCall n || containsDangerousCallList ns

end

theorem nodeViolation_eq_none_iff (ty : String) (name : Option String) :
    nodeViolation ty name = none ↔
      isDenyStmtType ty = false ∧ isDangerousCall ty name = false := by
  unfold nodeViolation
  by_cases h1 : isDenyStmtType ty = true
  · simp [h1]
  · by_cases h2 : isDangerousCall ty name = true
    · simp [h1, h2]
    · simp [Bool.eq_false_iff.mpr h1, Bool.eq_false_iff.mpr h2]

mutual

theorem violations_nil_iff (n : Node) :
    violations n = [] ↔
      containsDenyStmt n = false ∧ containsDangerousCall n = false := by
  match n with
  | .mk ty name children =>
    cases h : nodeViolation ty name with
    | some m =>
      simp only [violations, h]
      constructor
      · intro hc; exact absurd hc (by simp)
      · intro ⟨hs, hf⟩
        simp only [containsDenyStmt, Bool.or_eq_false_iff] at hs
        simp only [containsDangerousCall, Bool.or_eq_false_iff] at hf
        rw [(nodeViolation_eq_none_iff ty name).mpr ⟨hs.1, hf.1⟩] at h
        exact absurd h (by simp)
    | none =>
      have hn := (nodeViolation_eq_none_iff ty name).mp h
      simp only [violations, h, containsDenyStmt, containsDangerousCall,
        hn.1, hn.2, Bool.false_or]
      exact violationsList_nil_iff children

theorem violationsList_nil_iff (l : List Node) :
    violationsList l = [] ↔
      containsDenyStmtList l = false ∧ containsDangerousCallList l = false := by
  match l with
  | [] => simp [violationsList, containsDenyStmtList, containsDangerousCallList]
  | n :: ns =>
    simp only [violationsList, List.append_eq_nil, containsDenyStmtList,
      containsDangerousCallList, Bool.or_eq_false_iff]
    rw [violations_nil_iff n, violationsList_nil_iff ns]
    tauto

end

/-- Every message in the violation list is either a write-operation message
for a denylisted statement kind or a function message for a denylisted
function. -/
def isViolationMsg (m : String) : Prop :=
  (∃ t ∈ dangerousStatementTypes, m = "Write operation not allowed: " ++ t) ∨
  (∃ f ∈ dangerousFunctions, m = "Function not allowed: " ++ f)

theorem nodeViolation_isViolationMsg (ty : String) (name : Option String)
    (m : String) (h : nodeViolation ty name = some m) : isViolationMsg m := by
  unfold nodeViolation at h
  by_cases h1 : isDenyStmtType ty = true
  · rw [if_pos h1] at h
    left
    exact ⟨ty, by simpa [isDenyStmtType] using h1, (Option.some_inj.mp h).symm⟩
  · rw [if_neg h1] at h
    by_cases h2 : isDangerousCall ty name = true
    · rw [if_pos h2] at h
      right
      refine ⟨lowerStr (name.getD ""), ?_, (Option.some_inj.mp h).symm⟩
      simp only [isDangerousCall, Bool.and_eq_true, decide_eq_true_eq] at h2
      exact h2.2
    · rw [if_neg h2] at h
      exact absurd h (by simp)

mutual

theorem violations_isViolationMsg (n : Node) (m : String)
    (h : m ∈ violations n) : isViolationMsg m := by
  match n with
  | .mk ty name children =>
    cases hv : nodeViolation ty name with
    | some v =>
      simp only [violations, hv, List.mem_singleton] at h
      exact h ▸ nodeViolation_isViolationMsg ty name v hv
    | none =>
      simp only [violations, hv] at h
      exact violationsList_isViolationMsg children m h

theorem violationsList_isViolationMsg (l : List Node) (m : String)
    (h : m ∈ violationsList l) : isViolationMsg m := by
  match l with
  | [] => simp [violationsList] at h
  | n :: ns =>
    simp only [violationsList, List.mem_append] at h
    rcases h with h | h
    · exact violations_isViolationMsg n m h
    · exact violationsList_isViolationMsg ns m h

end

/-- Verdict of `validateReadOnlyQuery` on a successfully parsed tree, in
terms of the spec-side violation list: the last violation in traversal
order, or acceptance when there is none. -/
theorem validate_ok_eq (parseSql : String → Except String Node) (sql : String)
    (t : Node) (hp : parseSql sql = .ok t) :
    validateReadOnlyQuery parseSql sql =
      match (violations t).getLast? with
      | none => ⟨true, none⟩
      | some m => ⟨false, some m⟩ := by
  unfold validateReadOnlyQuery
  rw [hp]
  simp only [checkNode_eq_finalState, finalState]
  cases h : (violations t).getLast? with
  | none => rfl
  | some m => rfl

/-! ### The `/query/shared` pipeline of the `fetch` handler -/

/-- An opaque SQL value, as carried in bind parameters and result rows. -/
inductive SqlValue where
  | null
  | integer (n : Int)
  | real (q : ℚ)
  | text (s : String)
deriving DecidableEq, Repr

/-- The fields of the stripeflare user the handler reads: `access_token`
(authentication) and `balance` (snapshot taken at the start of the
request). -/
structure QueryUser where
  access_token : Option String
  balance : ℚ
deriving DecidableEq, Repr

/-- The parsed JSON request body `{ sql?, params? }`. -/
structure ReqBody where
  sql : Option String
  params : Option (List SqlValue)
deriving DecidableEq, Repr

/-- Outcome of the ledger's `charge` call.  The handler reads only
`charged` and `message`; `newBalance` is the balance the ledger itself
reports after the debit, which the handler ignores. -/
structure ChargeOutcome where
  charged : Bool
  message : Option String
  newBalance : ℚ
deriving DecidableEq, Repr

/-- The cursor data produced by the storage collaborator's `exec`. -/
structure QueryResult where
  columnNames : List String
  rows : List (List SqlValue)
  rowsRead : Nat
  rowsWritten : Nat
deriving DecidableEq, Repr

/-- The `meta` object of the success envelope, field for field. -/
structure RespMeta where
  rows_read : Nat
  rows_written : Nat
  charge_applied : ℚ
  remaining_balance : ℚ
deriving DecidableEq, Repr

/-- The `result` object of the success envelope, field for field. -/
structure ResultEnvelope where
  columns : List String
  rows : List (List SqlValue)
  meta : RespMeta
deriving DecidableEq, Repr

/-- A JSON response body: an error object (optional `details`), the 402
payment-error object (`message`, `balance`), or the success envelope. -/
inductive RespBody where
  | err (error : String) (details : Option String)
  | paymentErr (error : String) (message : Option String) (balance : ℚ)
  | success (result : ResultEnvelope)
deriving DecidableEq, Repr

/-- An HTTP response: status plus JSON body. -/
structure Resp where
  status : Nat
  body : RespBody
deriving DecidableEq, Repr

/-- Observable calls the handler makes to the external collaborators that
can affect money or data: a ledger debit, a statement execution, or a
ledger credit (refund).  The handler never emits `refundCall`; the
constructor exists to state that no compensation happens. -/
inductive Event where
  | chargeCall (amount : ℚ) (immediate : Bool)
  | execCall (sql : String) (params : List SqlValue)
  | refundCall (amount : ℚ)
deriving DecidableEq, Repr

/-- Translation of the `/query/shared` branch of the `fetch` handler
(`src/main.ts` lines 136-233), returning the response together with the
trace of collaborator calls.  `body` is the outcome of `request.json()`:
an exception there is caught by the surrounding try/catch, like an
executor fault.  `charge` and `exec` are the ledger and storage
collaborators; `parseSql` is the SQL parser used by the validator. -/
def handleQueryShared (user : QueryUser) (body : Except String ReqBody)
    (parseSql : String → Except String Node)
    (charge : ℚ → Bool → ChargeOutcome)
    (exec : String → List SqlValue → Except String QueryResult) :
    Resp × List Event :=
  if strTruthy user.access_token = false then
    (⟨401, .err "Authentication required" none⟩, [])
  else
    match body with
    | .error e => (⟨500, .err "Query execution failed" (some e)⟩, [])
    | .ok data =>
      if strTruthy data.sql = false then
        (⟨400, .err "SQL query is required" none⟩, [])
      else
        let sql := data.sql.getD ""
        let validation := validateReadOnlyQuery parseSql sql
        if validation.isValid = false then
          (⟨400, .err "Invalid query" validation.error⟩, [])
        else
          let chargeResult := charge 0.1 false
          if chargeResult.charged = false then
            (⟨402, .paymentErr "Insufficient balance" chargeResult.message
                user.balance⟩,
             [.chargeCall 0.1 false])
          else
            match exec sql (data.params.getD []) with
            | .error e =>
              (⟨500, .err "Query execution failed" (some e)⟩,
               [.chargeCall 0.1 false, .execCall sql (data.params.getD [])])
            | .ok qr =>
              (⟨200, .success
                  { columns := qr.columnNames
                    rows := qr.rows
                    meta :=
                      { rows_read := qr.rowsRead
                        rows_written := qr.rowsWritten
                        charge_applied := 0.1
                        remaining_balance := user.balance - 0.1 } }⟩,
               [.chargeCall 0.1 false, .execCall sql (data.params.getD [])])

/-! ### Path lemmas for the pipeline -/

section PathLemmas

variable (user : QueryUser) (body : Except String ReqBody)
variable (parseSql : String → Except String Node)
variable (charge : ℚ → Bool → ChargeOutcome)
variable (exec : String → List SqlValue → Except String QueryResult)

theorem handle_auth_fail (hauth : strTruthy user.access_token = false) :
    handleQueryShared user body parseSql charge exec =
      (⟨401, .err "Authentication required" none⟩, []) := by
  unfold handleQueryShared
  rw [if_pos hauth]

theorem handle_body_error (e : String)
    (hauth : strTruthy user.access_token = true) (hbody : body = .error e) :
    handleQueryShared user body parseSql charge exec =
      (⟨500, .err "Query execution failed" (some e)⟩, []) := by
  unfold handleQueryShared
  rw [hbody]
  simp [hauth]

theorem handle_no_sql (data : ReqBody)
    (hauth : strTruthy user.access_token = true) (hbody : body = .ok data)
    (hsql : strTruthy data.sql = false) :
    handleQueryShared user body parseSql charge exec =
      (⟨400, .err "SQL query is required" none⟩, []) := by
  unfold handleQueryShared
  rw [hbody]
  simp [hauth, hsql]

theorem handle_validation_fail (data : ReqBody) (s : String)
    (hauth : strTruthy user.access_token = true) (hbody : body = .ok data)
    (hsql : data.sql = some s) (hs : s ≠ "")
    (hv : (validateReadOnlyQuery parseSql s).isValid = false) :
    handleQueryShared user body parseSql charge exec =
      (⟨400, .err "Invalid query" (validateReadOnlyQuery parseSql s).error⟩,
       []) := by
  have hst : strTruthy (some s) = true := by simp [strTruthy, hs]
  unfold handleQueryShared
  rw [hbody]
  simp [hauth, hsql, hst, hv]

theorem handle_charge_fail (data : ReqBody) (s : String)
    (hauth : strTruthy user.access_token = true) (hbody : body = .ok data)
    (hsql : data.sql = some s) (hs : s ≠ "")
    (hv : (validateReadOnlyQuery parseSql s).isValid = true)
    (hc : (charge 0.1 false).charged = false) :
    handleQueryShared user body parseSql charge exec =
      (⟨402, .paymentErr "Insufficient balance" (charge 0.1 false).message
          user.balance⟩,
       [.chargeCall 0.1 false]) := by
  have hst : strTruthy (some s) = true := by simp [strTruthy, hs]
  unfold handleQueryShared
  rw [hbody]
  simp [hauth, hsql, hst, hv, hc]

theorem handle_exec_fail (data : ReqBody) (s : String) (e : String)
    (hauth : strTruthy user.access_token = true) (hbody : body = .ok data)
    (hsql : data.sql = some s) (hs : s ≠ "")
    (hv : (validateReadOnlyQuery parseSql s).isValid = true)
    (hc : (charge 0.1 false).charged = true)
    (he : exec s (data.params.getD []) = .error e) :
    handleQueryShared user body parseSql charge exec =
      (⟨500, .err "Query execution failed" (some e)⟩,
       [.chargeCall 0.1 false, .execCall s (data.params.getD [])]) := by
  have hst : strTruthy (some s) = true := by simp [strTruthy, hs]
  unfold handleQueryShared
  rw [hbody]
  simp [hauth, hsql, hst, hv, hc, he]

theorem handle_success (data : ReqBody) (s : String) (qr : QueryResult)
    (hauth : strTruthy user.access_token = true) (hbody : body = .ok data)
    (hsql : data.sql = some s) (hs : s ≠ "")
    (hv : (validateReadOnlyQuery parseSql s).isValid = true)
    (hc : (charge 0.1 false).charged = true)
    (he : exec s (data.params.getD []) = .ok qr) :
    handleQueryShared user body parseSql charge exec =
      (⟨200, .success
          { columns := qr.columnNames
            rows := qr.rows
            meta :=
              { rows_read := qr.rowsRead
                rows_written := qr.rowsWritten
                charge_applied := 0.1
                remaining_balance := user.balance - 0.1 } }⟩,
       [.chargeCall 0.1 false, .execCall s (data.params.getD [])]) := by
  have hst : strTruthy (some s) = true := by simp [strTruthy, hs]
  unfold handleQueryShared
  rw [hbody]
  simp [hauth, hsql, hst, hv, hc, he]

end PathLemmas

/-! ### Further helper lemmas -/

theorem strTruthy_eq_true_iff (o : Option String) :
    strTruthy o = true ↔ ∃ s, o = some s ∧ s ≠ "" := by
  cases o <;> simp [strTruthy]

theorem mem_of_getLast?_eq_some {α : Type} {l : List α} {m : α}
    (h : l.getLast? = some m) : m ∈ l := by
  obtain ⟨hne, rfl⟩ := List.mem_getLast?_eq_getLast (l := l) (x := m) h
  exact List.getLast_mem hne

theorem violations_ne_nil_of_containsDenyStmt (t : Node)
    (h : containsDenyStmt t = true) : violations t ≠ [] := by
  intro hnil
  rcases (violations_nil_iff t).mp hnil with ⟨h1, _⟩
  rw [h] at h1
  exact absurd h1 (by simp)

theorem violations_ne_nil_of_containsDangerousCall (t : Node)
    (h : containsDangerousCall t = true) : violations t ≠ [] := by
  intro hnil
  rcases (violations_nil_iff t).mp hnil with ⟨_, h2⟩
  rw [h] at h2
  exact absurd h2 (by simp)

theorem validate_rejects_of_violations_ne_nil
    (parseSql : String → Except String Node) (sql : String) (t : Node)
    (hp : parseSql sql = .ok t) (hne : violations t ≠ []) :
    ∃ m, (violations t).getLast? = some m ∧
      validateReadOnlyQuery parseSql sql = ⟨false, some m⟩ := by
  cases hlast : (violations t).getLast? with
  | none =>
    rw [List.getLast?_eq_none_iff] at hlast
    exact absurd hlast hne
  | some m =>
    refine ⟨m, rfl, ?_⟩
    rw [validate_ok_eq parseSql sql t hp, hlast]

/-! ### Claim theorems -/

/-- Concrete tree for the C1 counterexample: a two-statement program whose
first statement is an `insert_stmt` and whose second statement contains a
`load_extension` call, so the function violation overwrites the
write-operation message. -/
def treeInsertThenCall : Node :=
  .mk "program" none
    [.mk "insert_stmt" none [],
     .mk "select_stmt" none [.mk "function_call" (some "load_extension") []]]

/-- C1 counterexample: the parse tree of
`INSERT INTO t DEFAULT VALUES; SELECT load_extension('x')` contains an
`insert_stmt` node, and the validator does return `allowed=false`, but the
reported reason is `Function not allowed: load_extension`, which is not a
write-operation message for any denylisted statement kind — refuting the
claim's "with a reason naming a write operation". -/
theorem validate_deny_kind_reason_counterexample :
    containsDenyStmt treeInsertThenCall = true ∧
    (validateReadOnlyQuery (fun _ => .ok treeInsertThenCall)
        "INSERT INTO t DEFAULT VALUES; SELECT load_extension(:x)").isValid
      = false ∧
    (validateReadOnlyQuery (fun _ => .ok treeInsertThenCall)
        "INSERT INTO t DEFAULT VALUES; SELECT load_extension(:x)").error
      = some "Function not allowed: load_extension" ∧
    ∀ t ∈ dangerousStatementTypes,
      "Function not allowed: load_extension" ≠
        "Write operation not allowed: " ++ t := by
  decide

/-- C1 (amended): for every SQL text whose parse tree contains, at any
depth, a node whose kind is one of the eight denylisted write/DDL kinds,
the validator returns `allowed=false`, and the reason is a violation
message — naming a write operation or, when a violation found later in
traversal overwrote it, a forbidden function. -/
theorem validate_rejects_deny_stmt_kinds
    (parseSql : String → Except String Node) (sql : String) (t : Node)
    (hp : parseSql sql = .ok t) (hc : containsDenyStmt t = true) :
    (validateReadOnlyQuery parseSql sql).isValid = false ∧
    ∃ m, (validateReadOnlyQuery parseSql sql).error = some m ∧
      isViolationMsg m := by
  obtain ⟨m, hlast, hval⟩ := validate_rejects_of_violations_ne_nil
    parseSql sql t hp (violations_ne_nil_of_containsDenyStmt t hc)
  rw [hval]
  exact ⟨rfl, m, rfl,
    violations_isViolationMsg t m (mem_of_getLast?_eq_some hlast)⟩

/-- Concrete single-statement insert tree. -/
def treeInsertOnly : Node := .mk "program" none [.mk "insert_stmt" none []]

/-- C1 witness: the amended theorem applied to the insert tree. -/
theorem validate_rejects_deny_stmt_kinds_witness :
    (validateReadOnlyQuery (fun _ => .ok treeInsertOnly)
        "INSERT INTO t DEFAULT VALUES").isValid = false ∧
    ∃ m, (validateReadOnlyQuery (fun _ => .ok treeInsertOnly)
        "INSERT INTO t DEFAULT VALUES").error = some m ∧ isViolationMsg m :=
  validate_rejects_deny_stmt_kinds (fun _ => .ok treeInsertOnly)
    "INSERT INTO t DEFAULT VALUES" treeInsertOnly rfl (by decide)

/-- Concrete tree for the C3 counterexample: a `load_extension` call whose
violation message is later overwritten by a sibling `insert_stmt`. -/
def treeCallThenInsert : Node :=
  .mk "program" none
    [.mk "select_stmt" none [.mk "function_call" (some "LOAD_extension") []],
     .mk "insert_stmt" none []]

/-- C3 counterexample: the parse tree of
`SELECT load_extension('x'); INSERT INTO t DEFAULT VALUES` contains a
function call to `load_extension` (mixed case), and the validator does
return `allowed=false`, but the reported reason is
`Write operation not allowed: insert_stmt`, which does not name the
function — refuting the claim's "with a reason naming that function". -/
theorem validate_dangerous_fn_reason_counterexample :
    containsDangerousCall treeCallThenInsert = true ∧
    (validateReadOnlyQuery (fun _ => .ok treeCallThenInsert)
        "SELECT LOAD_extension(:x); INSERT INTO t DEFAULT VALUES").isValid
      = false ∧
    (validateReadOnlyQuery (fun _ => .ok treeCallThenInsert)
        "SELECT LOAD_extension(:x); INSERT INTO t DEFAULT VALUES").error
      = some "Write operation not allowed: insert_stmt" ∧
    "Write operation not allowed: insert_stmt" ≠
      "Function not allowed: load_extension" := by
  decide

/-- C3 (amended): for every SQL text whose parse tree contains, at any
depth, a function-call node whose callee name lower-cases into the
dangerous-function denylist, the validator returns `allowed=false` with a
violation-message reason; the reason names that function (in lower case)
exactly when the call is the last violation in traversal order — in
particular when it is the only violation in the tree. -/
theorem validate_rejects_dangerous_functions
    (parseSql : String → Except String Node) (sql : String) (t : Node)
    (hp : parseSql sql = .ok t) (hc : containsDangerousCall t = true) :
    ((validateReadOnlyQuery parseSql sql).isValid = false ∧
     ∃ m, (validateReadOnlyQuery parseSql sql).error = some m ∧
       isViolationMsg m) ∧
    ∀ f, violations t = ["Function not allowed: " ++ f] →
      (validateReadOnlyQuery parseSql sql).error =
        some ("Function not allowed: " ++ f) := by
  obtain ⟨m, hlast, hval⟩ := validate_rejects_of_violations_ne_nil
    parseSql sql t hp (violations_ne_nil_of_containsDangerousCall t hc)
  constructor
  · rw [hval]
    exact ⟨rfl, m, rfl,
      violations_isViolationMsg t m (mem_of_getLast?_eq_some hlast)⟩
  · intro f hviol
    rw [hviol] at hlast
    simp only [List.getLast?_singleton, Option.some_inj] at hlast
    rw [hval, hlast]

/-- Concrete single `load_extension` call tree, upper-case callee. -/
def treeCallOnly : Node :=
  .mk "program" none
    [.mk "select_stmt" none [.mk "function_call" (some "LOAD_EXTENSION") []]]

/-- C3 witness: the amended theorem applied to a lone upper-case
`LOAD_EXTENSION` call, whose reason does name the function. -/
theorem validate_rejects_dangerous_functions_witness :
    (((validateReadOnlyQuery (fun _ => .ok treeCallOnly)
        "SELECT LOAD_EXTENSION(:x)").isValid = false ∧
      ∃ m, (validateReadOnlyQuery (fun _ => .ok treeCallOnly)
          "SELECT LOAD_EXTENSION(:x)").error = some m ∧ isViolationMsg m) ∧
     ∀ f, violations treeCallOnly = ["Function not allowed: " ++ f] →
       (validateReadOnlyQuery (fun _ => .ok treeCallOnly)
           "SELECT LOAD_EXTENSION(:x)").error =
         some ("Function not allowed: " ++ f)) ∧
    (validateReadOnlyQuery (fun _ => .ok treeCallOnly)
        "SELECT LOAD_EXTENSION(:x)").error =
      some "Function not allowed: load_extension" :=
  ⟨validate_rejects_dangerous_functions (fun _ => .ok treeCallOnly)
      "SELECT LOAD_EXTENSION(:x)" treeCallOnly rfl (by decide),
   (validate_rejects_dangerous_functions (fun _ => .ok treeCallOnly)
      "SELECT LOAD_EXTENSION(:x)" treeCallOnly rfl (by decide)).2
      "load_extension" (by decide)⟩

/-- C5: for every SQL text that parses to a tree containing no denylisted
statement-kind node and no forbidden function call, the validator returns
`allowed=true` with no reason. -/
theorem validate_allows_clean_select
    (parseSql : String → Except String Node) (sql : String) (t : Node)
    (hp : parseSql sql = .ok t) (h1 : containsDenyStmt t = false)
    (h2 : containsDangerousCall t = false) :
    validateReadOnlyQuery parseSql sql = ⟨true, none⟩ := by
  have hnil : violations t = [] := (violations_nil_iff t).mpr ⟨h1, h2⟩
  rw [validate_ok_eq parseSql sql t hp, hnil]
  rfl

/-- Concrete clean select tree (a `SELECT COUNT(*)` shape). -/
def treeCleanSelect : Node :=
  .mk "program" none
    [.mk "select_stmt" none
      [.mk "select_clause" none [.mk "function_call" (some "count") []],
       .mk "from_clause" none [.mk "identifier" (some "sample_data") []]]]

/-- C5 witness: the theorem applied to a clean select tree. -/
theorem validate_allows_clean_select_witness :
    validateReadOnlyQuery (fun _ => .ok treeCleanSelect)
        "SELECT COUNT(*) as total FROM sample_data" = ⟨true, none⟩ :=
  validate_allows_clean_select (fun _ => .ok treeCleanSelect)
    "SELECT COUNT(*) as total FROM sample_data" treeCleanSelect rfl
    (by decide) (by decide)

/-- Concrete tree for the C9 counterexample: two violating sibling
statements. -/
def treeInsertThenUpdate : Node :=
  .mk "program" none
    [.mk "insert_stmt" none [], .mk "update_stmt" none []]

/-- C9 counterexample: on a program whose statements are an `insert_stmt`
followed by an `update_stmt`, the first violation in traversal order is the
insert, yet the traversal keeps going and the reported reason is the
update — refuting "no further nodes are inspected" and "the reported
reason is the violation encountered first in traversal order". -/
theorem first_error_reporting_counterexample :
    (violations treeInsertThenUpdate).head? =
      some "Write operation not allowed: insert_stmt" ∧
    (validateReadOnlyQuery (fun _ => .ok treeInsertThenUpdate)
        "INSERT INTO t DEFAULT VALUES; UPDATE t SET x = 1").error =
      some "Write operation not allowed: update_stmt" ∧
    "Write operation not allowed: update_stmt" ≠
      "Write operation not allowed: insert_stmt" := by
  decide

/-- C9 (amended): once a node itself violates, that node's own children are
not inspected (the walk's outcome is independent of them), but traversal
continues through the remaining siblings; the reported reason is the last
violation in traversal order, not the first. -/
theorem traversal_reports_last_violation :
    (∀ (s : CheckState) (ty : String) (name : Option String)
        (ch ch' : List Node) (m : String), nodeViolation ty name = some m →
        checkNode s (.mk ty name ch) = checkNode s (.mk ty name ch')) ∧
    (∀ (parseSql : String → Except String Node) (sql : String) (t : Node),
        parseSql sql = .ok t → violations t ≠ [] →
        ∃ m, (violations t).getLast? = some m ∧
          validateReadOnlyQuery parseSql sql = ⟨false, some m⟩) := by
  constructor
  · intro s ty name ch ch' m hm
    rw [checkNode_mk, checkNode_mk, hm]
  · intro parseSql sql t hp hne
    exact validate_rejects_of_violations_ne_nil parseSql sql t hp hne

/-- C9 witness: the amended theorem applied to the two-statement insert
then update program. -/
theorem traversal_reports_last_violation_witness :
    checkNode ⟨false, ""⟩ (.mk "insert_stmt" none [treeInsertOnly]) =
      checkNode ⟨false, ""⟩ (.mk "insert_stmt" none []) ∧
    ∃ m, (violations treeInsertThenUpdate).getLast? = some m ∧
      validateReadOnlyQuery (fun _ => .ok treeInsertThenUpdate)
        "INSERT INTO t DEFAULT VALUES; UPDATE t SET x = 1" =
          ⟨false, some m⟩ :=
  ⟨traversal_reports_last_violation.1 ⟨false, ""⟩ "insert_stmt" none
      [treeInsertOnly] [] "Write operation not allowed: insert_stmt"
      (by decide),
   traversal_reports_last_violation.2 (fun _ => .ok treeInsertThenUpdate)
      "INSERT INTO t DEFAULT VALUES; UPDATE t SET x = 1"
      treeInsertThenUpdate rfl (by decide)⟩

/-- C2: charge is invoked only after the validator has returned
`allowed=true` on the request's statement; the executor is invoked only
after `charged=true`; a validation failure yields a 400 with an empty
collaborator trace (no charge), and a charge failure yields a 402 with no
execution call. -/
theorem pipeline_charge_execute_ordering
    (user : QueryUser) (body : Except String ReqBody)
    (parseSql : String → Except String Node)
    (charge : ℚ → Bool → ChargeOutcome)
    (exec : String → List SqlValue → Except String QueryResult) :
    ((∃ a b, Event.chargeCall a b ∈
        (handleQueryShared user body parseSql charge exec).2) →
      ∃ data s, body = .ok data ∧ data.sql = some s ∧ s ≠ "" ∧
        (validateReadOnlyQuery parseSql s).isValid = true) ∧
    ((∃ q p, Event.execCall q p ∈
        (handleQueryShared user body parseSql charge exec).2) →
      (charge 0.1 false).charged = true) ∧
    (∀ data s, strTruthy user.access_token = true → body = .ok data →
      data.sql = some s → s ≠ "" →
      (validateReadOnlyQuery parseSql s).isValid = false →
      (handleQueryShared user body parseSql charge exec).1.status = 400 ∧
      (handleQueryShared user body parseSql charge exec).2 = []) ∧
    (∀ data s, strTruthy user.access_token = true → body = .ok data →
      data.sql = some s → s ≠ "" →
      (validateReadOnlyQuery parseSql s).isValid = true →
      (charge 0.1 false).charged = false →
      (handleQueryShared user body parseSql charge exec).1.status = 402 ∧
      ∀ q p, Event.execCall q p ∉
        (handleQueryShared user body parseSql charge exec).2) := by
  by_cases hauth : strTruthy user.access_token = false
  · rw [handle_auth_fail user body parseSql charge exec hauth]
    refine ⟨?_, ?_, ?_, ?_⟩
    · rintro ⟨a, b, hm⟩
      simp at hm
    · rintro ⟨q, p, hm⟩
      simp at hm
    · intro data s h1 _ _ _ _
      simp [hauth] at h1
    · intro data s h1 _ _ _ _ _
      simp [hauth] at h1
  · have hauth' : strTruthy user.access_token = true := by
      cases h : strTruthy user.access_token
      · exact absurd h hauth
      · rfl
    cases hb : body with
    | error e =>
      rw [handle_body_error user (.error e) parseSql charge exec e hauth' rfl]
      refine ⟨?_, ?_, ?_, ?_⟩
      · rintro ⟨a, b, hm⟩
        simp at hm
      · rintro ⟨q, p, hm⟩
        simp at hm
      · intro data s _ h2 _ _ _
        simp at h2
      · intro data s _ h2 _ _ _ _
        simp at h2
    | ok data =>
      by_cases hsql : strTruthy data.sql = false
      · rw [handle_no_sql user (.ok data) parseSql charge exec data hauth'
          rfl hsql]
        refine ⟨?_, ?_, ?_, ?_⟩
        · rintro ⟨a, b, hm⟩
          simp at hm
        · rintro ⟨q, p, hm⟩
          simp at hm
        · intro data' s h1 h2 h3 h4 h5
          obtain rfl : data' = data := (Except.ok.inj h2).symm
          rw [h3] at hsql
          simp [strTruthy, h4] at hsql
        · intro data' s h1 h2 h3 h4 h5 h6
          obtain rfl : data' = data := (Except.ok.inj h2).symm
          rw [h3] at hsql
          simp [strTruthy, h4] at hsql
      · have hsql' : strTruthy data.sql = true := by
          cases h : strTruthy data.sql
          · exact absurd h hsql
          · rfl
        obtain ⟨s, hds, hsne⟩ := (strTruthy_eq_true_iff data.sql).mp hsql'
        by_cases hv : (validateReadOnlyQuery parseSql s).isValid = false
        · rw [handle_validation_fail user (.ok data) parseSql charge exec
            data s hauth' rfl hds hsne hv]
          refine ⟨?_, ?_, ?_, ?_⟩
          · rintro ⟨a, b, hm⟩
            simp at hm
          · rintro ⟨q, p, hm⟩
            simp at hm
          · intro data' s' h1 h2 h3 h4 h5
            exact ⟨rfl, rfl⟩
          · intro data' s' h1 h2 h3 h4 h5 h6
            obtain rfl : data' = data := (Except.ok.inj h2).symm
            rw [hds] at h3
            obtain rfl : s' = s := (Option.some_inj.mp h3).symm
            rw [h5] at hv
            simp at hv
        · have hv' : (validateReadOnlyQuery parseSql s).isValid = true := by
            cases h : (validateReadOnlyQuery parseSql s).isValid
            · exact absurd h hv
            · rfl
          by_cases hc : (charge 0.1 false).charged = false
          · rw [handle_charge_fail user (.ok data) parseSql charge exec
              data s hauth' rfl hds hsne hv' hc]
            refine ⟨?_, ?_, ?_, ?_⟩
            · rintro ⟨a, b, hm⟩
              exact ⟨data, s, rfl, hds, hsne, hv'⟩
            · rintro ⟨q, p, hm⟩
              simp at hm
            · intro data' s' h1 h2 h3 h4 h5
              obtain rfl : data' = data := (Except.ok.inj h2).symm
              rw [hds] at h3
              obtain rfl : s' = s := (Option.some_inj.mp h3).symm
              rw [hv'] at h5
              simp at h5
            · intro data' s' h1 h2 h3 h4 h5 h6
              refine ⟨rfl, ?_⟩
              intro q p hm
              simp at hm
          · have hc' : (charge 0.1 false).charged = true := by
              cases h : (charge 0.1 false).charged
              · exact absurd h hc
              · rfl
            cases hex : exec s (data.params.getD []) with
            | error e =>
              rw [handle_exec_fail user (.ok data) parseSql charge exec
                data s e hauth' rfl hds hsne hv' hc' hex]
              refine ⟨?_, ?_, ?_, ?_⟩
              · intro _
                exact ⟨data, s, rfl, hds, hsne, hv'⟩
              · intro _
                exact hc'
              · intro data' s' h1 h2 h3 h4 h5
                obtain rfl : data' = data := (Except.ok.inj h2).symm
                rw [hds] at h3
                obtain rfl : s' = s := (Option.some_inj.mp h3).symm
                rw [h5] at hv'
                simp at hv'
              · intro data' s' h1 h2 h3 h4 h5 h6
                rw [hc'] at h6
                simp at h6
            | ok qr =>
              rw [handle_success user (.ok data) parseSql charge exec
                data s qr hauth' rfl hds hsne hv' hc' hex]
              refine ⟨?_, ?_, ?_, ?_⟩
              · intro _
                exact ⟨data, s, rfl, hds, hsne, hv'⟩
              · intro _
                exact hc'
              · intro data' s' h1 h2 h3 h4 h5
                obtain rfl : data' = data := (Except.ok.inj h2).symm
                rw [hds] at h3
                obtain rfl : s' = s := (Option.some_inj.mp h3).symm
                rw [h5] at hv'
                simp at hv'
              · intro data' s' h1 h2 h3 h4 h5 h6
                rw [hc'] at h6
                simp at h6

/-- C2 witness: on a request carrying a rejected insert statement, the
ordering theorem's validation-failure clause gives the concrete 400
response with an empty collaborator trace. -/
theorem pipeline_charge_execute_ordering_witness :
    (handleQueryShared ⟨some "tok", 5⟩
        (.ok ⟨some "INSERT INTO t DEFAULT VALUES", none⟩)
        (fun _ => .ok treeInsertOnly)
        (fun _ _ => ⟨true, none, 0⟩)
        (fun _ _ => .ok ⟨[], [], 0, 0⟩)).1.status = 400 ∧
    (handleQueryShared ⟨some "tok", 5⟩
        (.ok ⟨some "INSERT INTO t DEFAULT VALUES", none⟩)
        (fun _ => .ok treeInsertOnly)
        (fun _ _ => ⟨true, none, 0⟩)
        (fun _ _ => .ok ⟨[], [], 0, 0⟩)).2 = [] :=
  (pipeline_charge_execute_ordering ⟨some "tok", 5⟩
      (.ok ⟨some "INSERT INTO t DEFAULT VALUES", none⟩)
      (fun _ => .ok treeInsertOnly)
      (fun _ _ => ⟨true, none, 0⟩)
      (fun _ _ => .ok ⟨[], [], 0, 0⟩)).2.2.1
    ⟨some "INSERT INTO t DEFAULT VALUES", none⟩ "INSERT INTO t DEFAULT VALUES"
    (by decide) rfl rfl (by decide) (by decide)

/-- C4: a statement the parser rejects makes the validator fail closed
with the parse diagnostic, and any request carrying that statement ends in
a 400 without a single collaborator call (in particular no charge). -/
theorem parse_failure_rejects_and_never_charges
    (parseSql : String → Except String Node) (sql msg : String)
    (hp : parseSql sql = .error msg) (user : QueryUser)
    (params : Option (List SqlValue)) (charge : ℚ → Bool → ChargeOutcome)
    (exec : String → List SqlValue → Except String QueryResult) :
    validateReadOnlyQuery parseSql sql =
      ⟨false, some ("SQL parsing error: " ++ msg)⟩ ∧
    (∀ a b, Event.chargeCall a b ∉
      (handleQueryShared user (.ok ⟨some sql, params⟩)
          parseSql charge exec).2) ∧
    (strTruthy user.access_token = true → sql ≠ "" →
      handleQueryShared user (.ok ⟨some sql, params⟩) parseSql charge exec =
        (⟨400, .err "Invalid query"
            (some ("SQL parsing error: " ++ msg))⟩, [])) := by
  have hval : validateReadOnlyQuery parseSql sql =
      ⟨false, some ("SQL parsing error: " ++ msg)⟩ := by
    unfold validateReadOnlyQuery
    rw [hp]
  have hinv : ∀ hauth : strTruthy user.access_token = true, ∀ hs : sql ≠ "",
      handleQueryShared user (.ok ⟨some sql, params⟩) parseSql charge exec =
        (⟨400, .err "Invalid query"
            (some ("SQL parsing error: " ++ msg))⟩, []) := by
    intro hauth hs
    rw [handle_validation_fail user (.ok ⟨some sql, params⟩) parseSql charge
      exec ⟨some sql, params⟩ sql hauth rfl rfl hs (by rw [hval]), hval]
  refine ⟨hval, ?_, hinv⟩
  intro a b hm
  by_cases hauth : strTruthy user.access_token = false
  · rw [handle_auth_fail user (.ok ⟨some sql, params⟩) parseSql charge exec
      hauth] at hm
    simp at hm
  · have hauth' : strTruthy user.access_token = true := by
      cases h : strTruthy user.access_token
      · exact absurd h hauth
      · rfl
    by_cases hs : sql = ""
    · rw [handle_no_sql user (.ok ⟨some sql, params⟩) parseSql charge exec
        ⟨some sql, params⟩ hauth' rfl (by simp [strTruthy, hs])] at hm
      simp at hm
    · rw [hinv hauth' hs] at hm
      simp at hm

/-- C4 witness: the theorem applied to a failing parse of `SELEC * FROM x`
under a parser that reports an unexpected-token diagnostic. -/
theorem parse_failure_rejects_and_never_charges_witness :
    validateReadOnlyQuery (fun _ => .error "Unexpected token at position 5")
        "SELEC * FROM x" =
      ⟨false, some ("SQL parsing error: " ++
        "Unexpected token at position 5")⟩ ∧
    (∀ a b, Event.chargeCall a b ∉
      (handleQueryShared ⟨some "tok", 100⟩ (.ok ⟨some "SELEC * FROM x", none⟩)
          (fun _ => .error "Unexpected token at position 5")
          (fun _ _ => ⟨true, none, 0⟩)
          (fun _ _ => .ok ⟨[], [], 0, 0⟩)).2) ∧
    (strTruthy (some "tok" : Option String) = true → "SELEC * FROM x" ≠ "" →
      handleQueryShared ⟨some "tok", 100⟩ (.ok ⟨some "SELEC * FROM x", none⟩)
          (fun _ => .error "Unexpected token at position 5")
          (fun _ _ => ⟨true, none, 0⟩)
          (fun _ _ => .ok ⟨[], [], 0, 0⟩) =
        (⟨400, .err "Invalid query"
            (some ("SQL parsing error: " ++
              "Unexpected token at position 5"))⟩, [])) :=
  parse_failure_rejects_and_never_charges
    (fun _ => .error "Unexpected token at position 5") "SELEC * FROM x"
    "Unexpected token at position 5" rfl ⟨some "tok", 100⟩ none
    (fun _ _ => ⟨true, none, 0⟩) (fun _ _ => .ok ⟨[], [], 0, 0⟩)

/-- C6 counterexample: an authenticated request whose body is malformed
JSON (`request.json()` throws) is caught by the surrounding try/catch and
answered with status 500 `Query execution failed`, not the claimed 400
`SQL query is required`. -/
theorem body_parse_error_counterexample :
    (handleQueryShared ⟨some "tok", 100⟩
        (.error "Unexpected end of JSON input") (fun _ => .error "unused")
        (fun _ _ => ⟨false, none, 0⟩) (fun _ _ => .error "unused")).1 =
      ⟨500, .err "Query execution failed"
        (some "Unexpected end of JSON input")⟩ ∧
    (500 : Nat) ≠ 400 := by
  rw [handle_body_error ⟨some "tok", 100⟩
    (.error "Unexpected end of JSON input") (fun _ => .error "unused")
    (fun _ _ => ⟨false, none, 0⟩) (fun _ _ => .error "unused")
    "Unexpected end of JSON input" (by decide) rfl]
  exact ⟨rfl, by decide⟩

/-- C6 (amended): an authenticated request whose body parses as JSON but
lacks a non-empty `sql` field is answered deterministically with
400 `SQL query is required` and no collaborator call; a body that fails
JSON parsing altogether is instead caught by the handler's catch-all and
answered with 500 `Query execution failed`. -/
theorem missing_sql_maps_to_400
    (user : QueryUser) (body : Except String ReqBody)
    (parseSql : String → Except String Node)
    (charge : ℚ → Bool → ChargeOutcome)
    (exec : String → List SqlValue → Except String QueryResult) :
    (∀ data, strTruthy user.access_token = true → body = .ok data →
      (data.sql = none ∨ data.sql = some "") →
      handleQueryShared user body parseSql charge exec =
        (⟨400, .err "SQL query is required" none⟩, [])) ∧
    (∀ e, strTruthy user.access_token = true → body = .error e →
      handleQueryShared user body parseSql charge exec =
        (⟨500, .err "Query execution failed" (some e)⟩, [])) := by
  constructor
  · intro data hauth hbody hsql
    have : strTruthy data.sql = false := by
      rcases hsql with h | h <;> rw [h] <;> rfl
    exact handle_no_sql user body parseSql charge exec data hauth hbody this
  · intro e hauth hbody
    exact handle_body_error user body parseSql charge exec e hauth hbody

/-- C6 witness: the amended theorem applied to an authenticated request
whose body carries `sql = ""`. -/
theorem missing_sql_maps_to_400_witness :
    handleQueryShared ⟨some "tok", 100⟩ (.ok ⟨some "", none⟩)
        (fun _ => .error "unused") (fun _ _ => ⟨false, none, 0⟩)
        (fun _ _ => .error "unused") =
      (⟨400, .err "SQL query is required" none⟩, []) :=
  (missing_sql_maps_to_400 ⟨some "tok", 100⟩ (.ok ⟨some "", none⟩)
      (fun _ => .error "unused") (fun _ _ => ⟨false, none, 0⟩)
      (fun _ _ => .error "unused")).1
    ⟨some "", none⟩ (by decide) rfl (Or.inr rfl)

/-- C7: a request that passes validation, charging, and execution is
answered with status 200 and the envelope
`{ result: { columns, rows, meta: { rows_read, rows_written,
charge_applied, remaining_balance } } }`, where `charge_applied` is the
fixed fee 0.1 and `remaining_balance` is the user's balance snapshot minus
that fee. -/
theorem success_envelope_shape
    (user : QueryUser) (body : Except String ReqBody)
    (parseSql : String → Except String Node)
    (charge : ℚ → Bool → ChargeOutcome)
    (exec : String → List SqlValue → Except String QueryResult)
    (data : ReqBody) (s : String) (qr : QueryResult)
    (hauth : strTruthy user.access_token = true) (hbody : body = .ok data)
    (hds : data.sql = some s) (hsne : s ≠ "")
    (hv : (validateReadOnlyQuery parseSql s).isValid = true)
    (hc : (charge 0.1 false).charged = true)
    (he : exec s (data.params.getD []) = .ok qr) :
    (handleQueryShared user body parseSql charge exec).1 =
      ⟨200, .success
        { columns := qr.columnNames
          rows := qr.rows
          meta :=
            { rows_read := qr.rowsRead
              rows_written := qr.rowsWritten
              charge_applied := 0.1
              remaining_balance := user.balance - 0.1 } }⟩ := by
  rw [handle_success user body parseSql charge exec data s qr hauth hbody
    hds hsne hv hc he]

/-- C7 witness: the end-to-end scenario — `SELECT COUNT(*) as total FROM
sample_data` over the 5-row seeded dataset with balance 1000 — yields the
200 envelope with `rows = [[5]]`, `charge_applied = 0.1` and
`remaining_balance = 1000 - 0.1 = 999.9`. -/
theorem success_envelope_shape_witness :
    (handleQueryShared ⟨some "tok", 1000⟩
        (.ok ⟨some "SELECT COUNT(*) as total FROM sample_data", none⟩)
        (fun _ => .ok treeCleanSelect)
        (fun _ _ => ⟨true, none, 1000 - 0.1⟩)
        (fun _ _ => .ok ⟨["total"], [[.integer 5]], 5, 0⟩)).1 =
      ⟨200, .success
        { columns := ["total"]
          rows := [[.integer 5]]
          meta :=
            { rows_read := 5
              rows_written := 0
              charge_applied := 0.1
              remaining_balance := (1000 : ℚ) - 0.1 } }⟩ ∧
    (1000 : ℚ) - 0.1 = 9999 / 10 :=
  ⟨success_envelope_shape ⟨some "tok", 1000⟩
      (.ok ⟨some "SELECT COUNT(*) as total FROM sample_data", none⟩)
      (fun _ => .ok treeCleanSelect)
      (fun _ _ => ⟨true, none, 1000 - 0.1⟩)
      (fun _ _ => .ok ⟨["total"], [[.integer 5]], 5, 0⟩)
      ⟨some "SELECT COUNT(*) as total FROM sample_data", none⟩
      "SELECT COUNT(*) as total FROM sample_data"
      ⟨["total"], [[.integer 5]], 5, 0⟩
      (by decide) rfl rfl (by decide) (by decide) rfl rfl,
   by norm_num⟩

/-- C8: when the charge succeeds and execution then fails, the response is
status 500 with the diagnostic, and the trace shows exactly the one debit
followed by the execution attempt — no refund or other balance mutation on
the error path. -/
theorem exec_failure_returns_500_without_refund
    (user : QueryUser) (body : Except String ReqBody)
    (parseSql : String → Except String Node)
    (charge : ℚ → Bool → ChargeOutcome)
    (exec : String → List SqlValue → Except String QueryResult)
    (data : ReqBody) (s e : String)
    (hauth : strTruthy user.access_token = true) (hbody : body = .ok data)
    (hds : data.sql = some s) (hsne : s ≠ "")
    (hv : (validateReadOnlyQuery parseSql s).isValid = true)
    (hc : (charge 0.1 false).charged = true)
    (he : exec s (data.params.getD []) = .error e) :
    (handleQueryShared user body parseSql charge exec).1 =
      ⟨500, .err "Query execution failed" (some e)⟩ ∧
    (handleQueryShared user body parseSql charge exec).2 =
      [.chargeCall 0.1 false, .execCall s (data.params.getD [])] ∧
    ∀ a, Event.refundCall a ∉
      (handleQueryShared user body parseSql charge exec).2 := by
  rw [handle_exec_fail user body parseSql charge exec data s e hauth hbody
    hds hsne hv hc he]
  refine ⟨rfl, rfl, ?_⟩
  intro a hm
  simp at hm

/-- C8 witness: a charged request whose execution faults with a disk
error keeps the debit and answers 500. -/
theorem exec_failure_returns_500_without_refund_witness :
    (handleQueryShared ⟨some "tok", 1000⟩
        (.ok ⟨some "SELECT COUNT(*) as total FROM sample_data", none⟩)
        (fun _ => .ok treeCleanSelect)
        (fun _ _ => ⟨true, none, 1000 - 0.1⟩)
        (fun _ _ => .error "disk I/O error")).1 =
      ⟨500, .err "Query execution failed" (some "disk I/O error")⟩ ∧
    (handleQueryShared ⟨some "tok", 1000⟩
        (.ok ⟨some "SELECT COUNT(*) as total FROM sample_data", none⟩)
        (fun _ => .ok treeCleanSelect)
        (fun _ _ => ⟨true, none, 1000 - 0.1⟩)
        (fun _ _ => .error "disk I/O error")).2 =
      [.chargeCall 0.1 false,
       .execCall "SELECT COUNT(*) as total FROM sample_data" []] ∧
    ∀ a, Event.refundCall a ∉
      (handleQueryShared ⟨some "tok", 1000⟩
          (.ok ⟨some "SELECT COUNT(*) as total FROM sample_data", none⟩)
          (fun _ => .ok treeCleanSelect)
          (fun _ _ => ⟨true, none, 1000 - 0.1⟩)
          (fun _ _ => .error "disk I/O error")).2 :=
  exec_failure_returns_500_without_refund ⟨some "tok", 1000⟩
    (.ok ⟨some "SELECT COUNT(*) as total FROM sample_data", none⟩)
    (fun _ => .ok treeCleanSelect)
    (fun _ _ => ⟨true, none, 1000 - 0.1⟩)
    (fun _ _ => .error "disk I/O error")
    ⟨some "SELECT COUNT(*) as total FROM sample_data", none⟩
    "SELECT COUNT(*) as total FROM sample_data" "disk I/O error"
    (by decide) rfl rfl (by decide) (by decide) rfl rfl

/-- C10: on the success path the envelope's `charge_applied` is the
literal constant 0.1 and `remaining_balance` is the request-start balance
snapshot minus 0.1; neither comes from the balance the charge outcome
itself reports, so whenever the ledger's post-charge balance differs from
snapshot-minus-fee, the envelope still shows snapshot-minus-fee. -/
theorem remaining_balance_from_snapshot
    (user : QueryUser) (body : Except String ReqBody)
    (parseSql : String → Except String Node)
    (charge : ℚ → Bool → ChargeOutcome)
    (exec : String → List SqlValue → Except String QueryResult)
    (data : ReqBody) (s : String) (qr : QueryResult)
    (hauth : strTruthy user.access_token = true) (hbody : body = .ok data)
    (hds : data.sql = some s) (hsne : s ≠ "")
    (hv : (validateReadOnlyQuery parseSql s).isValid = true)
    (hc : (charge 0.1 false).charged = true)
    (he : exec s (data.params.getD []) = .ok qr)
    (hne : (charge 0.1 false).newBalance ≠ user.balance - 0.1) :
    (handleQueryShared user body parseSql charge exec).1 =
      ⟨200, .success
        { columns := qr.columnNames
          rows := qr.rows
          meta :=
            { rows_read := qr.rowsRead
              rows_written := qr.rowsWritten
              charge_applied := 0.1
              remaining_balance := user.balance - 0.1 } }⟩ ∧
    user.balance - 0.1 ≠ (charge 0.1 false).newBalance := by
  refine ⟨?_, fun h => hne h.symm⟩
  rw [handle_success user body parseSql charge exec data s qr hauth hbody
    hds hsne hv hc he]

/-- C10 witness: a ledger that reports post-charge balance 0 while the
snapshot is 100 still produces an envelope showing `100 - 0.1`. -/
theorem remaining_balance_from_snapshot_witness :
    (handleQueryShared ⟨some "tok", 100⟩
        (.ok ⟨some "SELECT 1", none⟩)
        (fun _ => .ok treeCleanSelect)
        (fun _ _ => ⟨true, none, 0⟩)
        (fun _ _ => .ok ⟨["1"], [[.integer 1]], 0, 0⟩)).1 =
      ⟨200, .success
        { columns := ["1"]
          rows := [[.integer 1]]
          meta :=
            { rows_read := 0
              rows_written := 0
              charge_applied := 0.1
              remaining_balance := (100 : ℚ) - 0.1 } }⟩ ∧
    (100 : ℚ) - 0.1 ≠ (0 : ℚ) :=
  remaining_balance_from_snapshot ⟨some "tok", 100⟩
    (.ok ⟨some "SELECT 1", none⟩)
    (fun _ => .ok treeCleanSelect)
    (fun _ _ => ⟨true, none, 0⟩)
    (fun _ _ => .ok ⟨["1"], [[.integer 1]], 0, 0⟩)
    ⟨some "SELECT 1", none⟩ "SELECT 1" ⟨["1"], [[.integer 1]], 0, 0⟩
    (by decide) rfl rfl (by decide) (by decide) rfl rfl (by norm_num)

end QueryFlare
